import Mathlib

/-!
Verification of `bucky/collectd.py` (collectd UDP → metric pipeline).

This file shallowly embeds the Python 2 source: byte strings become
`List Nat` (one entry per byte), Python ints become `ℤ`/`Nat`, Python
floats become `ℚ` (exact arithmetic; no claim settled here depends on
binary floating-point rounding), Python exceptions become an explicit
`PyErr` value threaded through `Except`, and the mutable
`prev_samples` dict becomes an explicit association list passed in and
returned.  Python 2 semantics that matter are modelled explicitly:
`/` on two ints is floor division, negative slice indices count from
the end of the sequence, calling a 1-parameter `lambda` with 3
arguments raises `TypeError`, `[][-1]` raises `IndexError`, and a
missing attribute or dict key raises `AttributeError` / `KeyError`.
-/

namespace Bucky

/-- Python exception classes raised by the module (plus the builtins it can
hit).  `structError` stands for `struct.error`. -/
inductive PyErr where
  | protocolError
  | configError
  | valueError
  | typeError
  | attributeError
  | zeroDivisionError
  | indexError
  | keyError
  | structError
deriving DecidableEq, Repr

/-- A decoded scalar value.  `vint` is a Python int/long; `vfloat` carries the
64-bit IEEE-754 bit pattern of a Python float exactly as assembled from the
wire (the numeric interpretation of the pattern is never needed by the
parser itself). -/
inductive PyVal where
  | vint : ℤ → PyVal
  | vfloat : Nat → PyVal
deriving DecidableEq, Repr

instance {ε α : Type} [DecidableEq ε] [DecidableEq α] : DecidableEq (Except ε α) :=
  fun x y =>
    match x, y with
    | .ok a, .ok b => decidable_of_iff (a = b) (by simp)
    | .error a, .error b => decidable_of_iff (a = b) (by simp)
    | .ok _, .error _ => isFalse (by simp)
    | .error _, .ok _ => isFalse (by simp)

/-! ## Rate calculator (`CollectDServer.calculate` and helpers)

`prev_samples` is a dict from metric name to `(value, timestamp)`; values and
timestamps reaching these functions are Python ints (COUNTER/ABSOLUTE decode
with `"!Q"`, DERIVE with `"!q"`, and `convert` applies `int(...)` to the
time), so the state is modelled over `ℤ` and Python 2 `/` on ints is
`Int.fdiv` (floor division). -/

/-- The `self.prev_samples` dict: metric name → `(lastValue, lastTimestamp)`. -/
abbrev RateState : Type := List (String × (ℤ × ℤ))

/-- Python dict assignment `self.prev_samples[name] = p` (replaces in place,
appends when absent). -/
def rsSet (st : RateState) (name : String) (p : ℤ × ℤ) : RateState :=
  match st with
  | [] => [(name, p)]
  | (k, v) :: rest => if k = name then (name, p) :: rest else (k, v) :: rsSet rest name p

/-- Dict lookup `self.prev_samples[name]` / `name in self.prev_samples`. -/
def rsGet (st : RateState) (name : String) : Option (ℤ × ℤ) :=
  match st with
  | [] => none
  | (k, v) :: rest => if k = name then some v else rsGet rest name

/-- `CollectDServer._calc_counter` (src/bucky/collectd.py lines 299-310).
On a second observation the baseline is overwritten *before* the monotonicity
test and the division; `(val - pval) / (time - ptime)` on Python 2 ints is
floor division and raises `ZeroDivisionError` when `time == ptime`. -/
def calcCounter (name : String) (val time : ℤ) (st : RateState) :
    RateState × Except PyErr (Option ℤ) :=
  match rsGet st name with
  | none => (rsSet st name (val, time), .ok none)
  | some (pval, ptime) =>
    let st' := rsSet st name (val, time)
    if val < pval then (st', .ok none)
    else if time = ptime then (st', .error .zeroDivisionError)
    else (st', .ok (some ((val - pval).fdiv (time - ptime))))

/-- `CollectDServer._calc_derive` (lines 312-319): as `_calc_counter` but
without the `val < pval` guard. -/
def calcDerive (name : String) (val time : ℤ) (st : RateState) :
    RateState × Except PyErr (Option ℤ) :=
  match rsGet st name with
  | none => (rsSet st name (val, time), .ok none)
  | some (pval, ptime) =>
    let st' := rsSet st name (val, time)
    if time = ptime then (st', .error .zeroDivisionError)
    else (st', .ok (some ((val - pval).fdiv (time - ptime))))

/-- `CollectDServer._calc_absolute` (lines 321-327). -/
def calcAbsolute (name : String) (val time : ℤ) (st : RateState) :
    RateState × Except PyErr (Option ℤ) :=
  match rsGet st name with
  | none => (rsSet st name (val, time), .ok none)
  | some (_pval, ptime) =>
    let st' := rsSet st name (val, time)
    if time = ptime then (st', .error .zeroDivisionError)
    else (st', .ok (some (val.fdiv (time - ptime))))

/-- `CollectDServer.calculate` (lines 287-297).  The handler table maps
vtype 1 (GAUGE) to `lambda v: v`, a 1-parameter function, yet every handler
is invoked as `handlers[vtype](name, val, time)` with three arguments, so
the GAUGE branch raises `TypeError` before touching `val` or the state.
An unknown vtype is logged and the method returns `None`. -/
def calculate (name : String) (vtype : Nat) (val time : ℤ) (st : RateState) :
    RateState × Except PyErr (Option ℤ) :=
  match vtype with
  | 0 => calcCounter name val time st
  | 1 => (st, .error .typeError)
  | 2 => calcDerive name val time st
  | 3 => calcAbsolute name val time st
  | _ => (st, .ok none)

/-- The exception filter of the datagram loop `CollectDServer.run`
(lines 275-285): `except ProtocolError` catches exactly `ProtocolError`;
every other exception propagates out of the loop. -/
def runCatches : PyErr → Bool
  | .protocolError => true
  | _ => false

/-! ## Byte-level decoding (`struct.unpack`) -/

/-- Big-endian assembly of a byte sequence into an unsigned integer
(`struct.unpack("!Q", ...)` on 8 bytes). -/
def beU64 (bytes : List Nat) : Nat :=
  bytes.foldl (fun acc b => 256 * acc + b) 0

/-- Little-endian assembly (`struct.unpack("<d", ...)` reads the 8 bytes in
little-endian order; the result is the IEEE-754 bit pattern of the double). -/
def leU64 (bytes : List Nat) : Nat :=
  beU64 bytes.reverse

/-- Big-endian signed 64-bit (`struct.unpack("!q", ...)`, two's complement). -/
def beI64 (bytes : List Nat) : ℤ :=
  if beU64 bytes < 2 ^ 63 then (beU64 bytes : ℤ) else (beU64 bytes : ℤ) - 2 ^ 64

/-- The struct format strings used by `parse_values`:
`{0: "!Q", 1: "<d", 2: "!q", 3: "!Q"}`. -/
inductive Fmt where
  | bigQ
  | littleD
  | bigq
deriving DecidableEq, Repr

/-- The dict `types = {0: "!Q", 1: "<d", 2: "!q", 3: "!Q"}` of
`CollectDParser.parse_values`; `none` models the `KeyError` a dict miss
would raise. -/
def fmtOf : Nat → Option Fmt
  | 0 => some .bigQ
  | 1 => some .littleD
  | 2 => some .bigq
  | 3 => some .bigQ
  | _ => none

/-- `struct.unpack(fmt, vdata)` for the three 8-byte formats; `struct.error`
when the buffer is not exactly 8 bytes. -/
def unpackFmt (f : Fmt) (bytes : List Nat) : Except PyErr PyVal :=
  if bytes.length = 8 then
    .ok (match f with
      | .bigQ => .vint (beU64 bytes)
      | .littleD => .vfloat (leU64 bytes)
      | .bigq => .vint (beI64 bytes))
  else .error .structError

/-! ## Type schema (`CollectDTypes`) as seen by the parser

`self.types` maps a type name (a byte string) to its ordered list of
`(value_name, value_kind)` pairs. -/

/-- The `self.types` dict of `CollectDTypes`. -/
abbrev Schema : Type := List (List Nat × List (String × Nat))

/-- `CollectDTypes.get` (lines 42-46): unknown names raise `ProtocolError`. -/
def schemaGet (sc : Schema) (name : List Nat) : Except PyErr (List (String × Nat)) :=
  match sc with
  | [] => .error .protocolError
  | (k, td) :: rest => if k = name then .ok td else schemaGet rest name

/-! ## `CollectDParser.parse_values` (lines 144-161) -/

/-- The tag-checking loop
`for i in range(nvals): struct.unpack("B", data[i]) != vtypes[i][1] → raise`.
The recursion pairs `data[i]` with `vtypes[i]`; running out of data would be
Python's `IndexError` (unreachable once the length checks passed). -/
def tagsLoop : List Nat → List (String × Nat) → Except PyErr Unit
  | _, [] => .ok ()
  | [], _ :: _ => .error .indexError
  | b :: bs, t :: ts => if b ≠ t.2 then .error .protocolError else tagsLoop bs ts

/-- The decode loop of `parse_values`: peel 8 bytes per entry and unpack with
the format selected by the entry's kind. -/
def decodeLoop : List (String × Nat) → List Nat → Except PyErr (List (String × Nat × PyVal))
  | [], _ => .ok []
  | t :: ts, vals =>
    match fmtOf t.2 with
    | none => .error .keyError
    | some f =>
      match unpackFmt f (vals.take 8) with
      | .error e => .error e
      | .ok v =>
        match decodeLoop ts (vals.drop 8) with
        | .error e => .error e
        | .ok rest => .ok ((t.1, t.2, v) :: rest)

/-- `CollectDParser.parse_values` (lines 144-161), the generator consumed
eagerly.  A payload of fewer than 2 bytes makes `struct.unpack("!H", data[:2])`
raise `struct.error`. -/
def parse_values (schema : Schema) (stype : List Nat) (payload : List Nat) :
    Except PyErr (List (String × Nat × PyVal)) :=
  match payload with
  | c0 :: c1 :: body =>
    let nvals := 256 * c0 + c1
    if body.length ≠ 9 * nvals then .error .protocolError
    else
      match schemaGet schema stype with
      | .error e => .error e
      | .ok vtypes =>
        if nvals ≠ vtypes.length then .error .protocolError
        else
          match tagsLoop body vtypes with
          | .error e => .error e
          | .ok _ => decodeLoop vtypes (body.drop nvals)
  | _ => .error .structError

/-- Decoding of one 8-byte value as the spec describes it, per kind:
COUNTER (0) and ABSOLUTE (3) big-endian unsigned, DERIVE (2) big-endian
signed, GAUGE (1) little-endian IEEE-754 double (bit pattern). -/
def specDecode (kind : Nat) (bytes : List Nat) : PyVal :=
  if kind = 1 then .vfloat (leU64 bytes)
  else if kind = 2 then .vint (beI64 bytes)
  else .vint (beU64 bytes)

/-- Every 1-byte kind tag at position `i` of the values payload matches the
schema kind at position `i`. -/
def TagsMatch (body : List Nat) (td : List (String × Nat)) : Prop :=
  ∀ i < td.length, body.getD i 0 = (td.getD i ("", 0)).2

instance (body : List Nat) (td : List (String × Nat)) : Decidable (TagsMatch body td) :=
  Nat.decidableBallLT _ _

/-! ## `CollectDParser.parse_data` (lines 125-142) -/

/-- The set of part-type codes the wire walk accepts (lines 126-130). -/
def validCodes : List Nat :=
  [0x0000, 0x0001, 0x0002, 0x0003, 0x0004,
   0x0005, 0x0006, 0x0007, 0x0008, 0x0009,
   0x0100, 0x0101, 0x0200, 0x0210]

/-- Python slice `l[:i]` for a possibly negative int index. -/
def pySliceTo (i : ℤ) (l : List α) : List α :=
  if 0 ≤ i then l.take i.toNat else l.take ((l.length : ℤ) + i).toNat

/-- Python slice `l[i:]` for a possibly negative int index. -/
def pySliceFrom (i : ℤ) (l : List α) : List α :=
  if 0 ≤ i then l.drop i.toNat else l.drop ((l.length : ℤ) + i).toNat

/-- One wire walk of `parse_data`, a generator collected into the list of
yielded `(part_type, part_data)` pairs plus the error, if any, that ends the
walk.  `part_len -= 4` can go negative, in which case the truncation check
`len(data) < part_len` cannot fire and the two slices use Python's
negative-index semantics.  The fuel argument only drives the recursion: each
iteration strictly shortens `data`, so `data.length` fuel always suffices
(see `parseDataAux_fuel`). -/
def parseDataAux : Nat → List Nat → List (Nat × List Nat) × Option PyErr
  | _, [] => ([], none)
  | 0, _ :: _ => ([], none)
  | _ + 1, [_] => ([], some .protocolError)
  | _ + 1, [_, _] => ([], some .protocolError)
  | _ + 1, [_, _, _] => ([], some .protocolError)
  | fuel + 1, b0 :: b1 :: b2 :: b3 :: rest =>
    let ptype := 256 * b0 + b1
    if ptype ∉ validCodes then ([], some .protocolError)
    else
      let plen : ℤ := (256 * b2 + b3 : ℤ) - 4
      if (rest.length : ℤ) < plen then ([], some .protocolError)
      else
        let part := pySliceTo plen rest
        let rest' := pySliceFrom plen rest
        let (parts, err) := parseDataAux fuel rest'
        ((ptype, part) :: parts, err)

/-- `CollectDParser.parse_data` on a whole datagram. -/
def parseData (data : List Nat) : List (Nat × List Nat) × Option PyErr :=
  parseDataAux data.length data

/-! ## `CollectDParser.parse_samples` (lines 98-123) -/

/-- The mutable `sample` dict accumulated across one datagram's parts. -/
structure Sample where
  host : Option (List Nat) := none
  plugin : Option (List Nat) := none
  plugin_instance : Option (List Nat) := none
  type : Option (List Nat) := none
  type_instance : Option (List Nat) := none
  time : Option ℚ := none
  interval : Option ℚ := none
  value_name : Option String := none
  value_type : Option Nat := none
  value : Option PyVal := none
deriving DecidableEq, Repr

/-- `CollectDParser._parse_string` (lines 163-168): the payload must end in a
zero byte (excluded from the stored value); `data[-1]` on an empty payload is
`IndexError`. -/
def parseStringPayload (d : List Nat) : Except PyErr (List Nat) :=
  match d.getLast? with
  | none => .error .indexError
  | some b => if b ≠ 0 then .error .protocolError else .ok d.dropLast

/-- `CollectDParser._parse_time` (lines 170-176): 8 bytes, big-endian
unsigned, stored as `float(val)`. -/
def parseTimePayload (d : List Nat) : Except PyErr ℚ :=
  if d.length ≠ 8 then .error .protocolError else .ok (beU64 d : ℚ)

/-- `CollectDParser._parse_time_hires` (lines 178-184): 8 bytes, big-endian
unsigned, stored as `val * 2 ** -30` (the float product modelled exactly). -/
def parseTimeHiresPayload (d : List Nat) : Except PyErr ℚ :=
  if d.length ≠ 8 then .error .protocolError else .ok ((beU64 d : ℚ) / 2 ^ 30)

/-- Processing of a single yielded `(ptype, data)` pair inside the
`parse_samples` loop (lines 112-123): a code outside the handler dict is
logged and skipped (`continue`), a values part fans out into one deep-copied
sample per decoded value (reading `sample["type"]`, a `KeyError` when no type
part preceded), and every other handled code mutates one field of `sample`.
Returns the updated `sample` plus the list of yielded samples. -/
def processPart (schema : Schema) (s : Sample) :
    Nat × List Nat → Except PyErr (Sample × List Sample)
  | (0x0000, d) => (parseStringPayload d).map fun v => ({ s with host := some v }, [])
  | (0x0001, d) => (parseTimePayload d).map fun q => ({ s with time := some q }, [])
  | (0x0008, d) => (parseTimeHiresPayload d).map fun q => ({ s with time := some q }, [])
  | (0x0002, d) => (parseStringPayload d).map fun v => ({ s with plugin := some v }, [])
  | (0x0003, d) => (parseStringPayload d).map fun v => ({ s with plugin_instance := some v }, [])
  | (0x0004, d) => (parseStringPayload d).map fun v => ({ s with type := some v }, [])
  | (0x0005, d) => (parseStringPayload d).map fun v => ({ s with type_instance := some v }, [])
  | (0x0007, d) => (parseTimePayload d).map fun q => ({ s with interval := some q }, [])
  | (0x0009, d) => (parseTimeHiresPayload d).map fun q => ({ s with interval := some q }, [])
  | (0x0006, d) =>
    match s.type with
    | none => .error .keyError
    | some st =>
      (parse_values schema st d).map fun triples =>
        let yielded := triples.map fun t =>
          { s with value_name := some t.1, value_type := some t.2.1, value := some t.2.2 }
        let s' :=
          match triples.getLast? with
          | none => s
          | some t =>
            { s with value_name := some t.1, value_type := some t.2.1, value := some t.2.2 }
        (s', yielded)
  | (_, _) => .ok (s, [])

/-- The `parse_samples` loop folded over the parts yielded by `parse_data`;
`perr` is the error (if any) `parse_data` would raise after its last yield,
surfaced only when every part processed cleanly (a processing error aborts
the walk first, exactly as with interleaved generators). -/
def goSamples (schema : Schema) (s : Sample) :
    List (Nat × List Nat) → Option PyErr → List Sample × Option PyErr
  | [], perr => ([], perr)
  | p :: parts, perr =>
    match processPart schema s p with
    | .error e => ([], some e)
    | .ok (s', emitted) =>
      let pr := goSamples schema s' parts perr
      (emitted ++ pr.1, pr.2)

/-- `CollectDParser.parse_samples` over one datagram: the yielded samples in
order plus the exception, if any, that ends the iteration. -/
def parseSamples (schema : Schema) (data : List Nat) : List Sample × Option PyErr :=
  let (parts, perr) := parseData data
  goSamples schema {} parts perr

/-! ## Type database loading (`CollectDTypes`, lines 35-87)

`CollectDTypes.__init__` assigns exactly the attributes `typesdb`, `types`
and `type_ranges` and then calls `_load_types`, whose first statement is
`open(self.types_db)`: that attribute was never assigned (the path helper
`_fname` is defined but never called), so construction raises
`AttributeError` before any file is read.  The per-line parsing below embeds
`_add_type_line`, which is what the load loop would run on each
non-comment, non-blank line. -/

/-- The instance attributes assigned in `CollectDTypes.__init__`
(lines 36-40) before `_load_types` runs. -/
def collectDTypesInitAttrs : List String :=
  ["typesdb", "types", "type_ranges"]

/-- The attribute `_load_types` reads on line 49 (`open(self.types_db)`). -/
def loadTypesReadsAttr : String := "types_db"

/-- Python `str.isspace` characters relevant to `split`/`strip`. -/
def isPyWs (c : Char) : Bool :=
  c = ' ' || c = '\t' || c = '\n' || c = '\r' || c = '\x0b' || c = '\x0c'

/-- Python `s.strip()`. -/
def pyStrip (s : List Char) : List Char :=
  ((s.dropWhile isPyWs).reverse.dropWhile isPyWs).reverse

/-- Python `name, spec = line.split(None, 1)`: split on the first whitespace
run (after skipping leading whitespace), keeping the remainder verbatim;
fewer than two fields makes the tuple unpacking raise `ValueError`. -/
def splitNone1 (s : List Char) : Except PyErr (List Char × List Char) :=
  let s1 := s.dropWhile isPyWs
  match s1 with
  | [] => .error .valueError
  | _ =>
    let name := s1.takeWhile (fun c => !isPyWs c)
    let rest := (s1.dropWhile (fun c => !isPyWs c)).dropWhile isPyWs
    if rest = [] then .error .valueError else .ok (name, rest)

/-- Python `s.split(sep)` for a non-empty literal separator (used with
`", "` and `":"`); keeps empty fields, leftmost-first.  Fuel is the input
length (each step consumes at least one character). -/
def splitSeqAux (sep : List Char) : Nat → List Char → List Char → List (List Char)
  | _, acc, [] => [acc.reverse]
  | 0, acc, rest => [acc.reverse ++ rest]
  | fuel + 1, acc, c :: cs =>
    if sep.isPrefixOf (c :: cs) then
      acc.reverse :: splitSeqAux sep fuel [] ((c :: cs).drop sep.length)
    else
      splitSeqAux sep fuel (c :: acc) cs

/-- Python `s.split(sep)` for a non-empty literal separator. -/
def splitSeq (sep s : List Char) : List (List Char) :=
  splitSeqAux sep s.length [] s

/-- Model of Python `float(s)`: optional sign, decimal digits with optional
fraction and exponent; anything else raises `ValueError`.  (Only the `"U"`
path is exercised by the theorems below; the parse is exact rational
arithmetic.) -/
def pyFloatQ (s : List Char) : Except PyErr ℚ :=
  let t := pyStrip s
  let (sign, t1) : ℚ × List Char :=
    match t with
    | '-' :: r => (-1, r)
    | '+' :: r => (1, r)
    | r => (1, r)
  let intPart := t1.takeWhile Char.isDigit
  let afterInt := t1.dropWhile Char.isDigit
  let (fracPart, afterFrac) : List Char × List Char :=
    match afterInt with
    | '.' :: r => (r.takeWhile Char.isDigit, r.dropWhile Char.isDigit)
    | r => ([], r)
  let (expOk, expVal) : Bool × ℤ :=
    match afterFrac with
    | [] => (true, 0)
    | 'e' :: r | 'E' :: r =>
      let (esign, r1) : ℤ × List Char :=
        match r with
        | '-' :: r2 => (-1, r2)
        | '+' :: r2 => (1, r2)
        | r2 => (1, r2)
      let digits := r1.takeWhile Char.isDigit
      if digits = [] ∨ r1.dropWhile Char.isDigit ≠ [] then (false, 0)
      else (true, esign * (digits.foldl (fun a c => 10 * a + (c.toNat - 48)) 0 : ℤ))
    | _ => (false, 0)
  if intPart = [] ∧ fracPart = [] then .error .valueError
  else if !expOk then .error .valueError
  else
    let mantissa : ℚ :=
      (intPart.foldl (fun a c => 10 * a + (c.toNat - 48)) 0 : ℚ) +
        (fracPart.foldl (fun a c => 10 * a + (c.toNat - 48)) 0 : ℚ) / 10 ^ fracPart.length
    .ok (sign * mantissa * (10 : ℚ) ^ expVal)

/-- The `types` dict of `_add_type_line` (lines 69-74): KIND token → ordinal. -/
def kindOf (vt : List Char) : Option Nat :=
  if vt = "COUNTER".toList then some 0
  else if vt = "GAUGE".toList then some 1
  else if vt = "DERIVE".toList then some 2
  else if vt = "ABSOLUTE".toList then some 3
  else none

/-- One `U`-or-float bound: `None if b == "U" else float(b)`. -/
def parseBound (b : List Char) : Except PyErr (Option ℚ) :=
  if b = ['U'] then .ok none
  else match pyFloatQ b with
    | .error e => .error e
    | .ok q => .ok (some q)

/-- The per-value loop body of `_add_type_line` (lines 79-87), folded over
the comma-space-separated specs.  Each spec must split on `":"` into exactly
four fields (otherwise the tuple unpacking raises `ValueError`); an
unrecognized KIND raises `ValueError` — not `ConfigError`. -/
def addTypeVals :
    List (List Char) → Except PyErr (List (List Char × Nat) × List (List Char × (Option ℚ × Option ℚ)))
  | [] => .ok ([], [])
  | val :: rest =>
    match splitSeq [':'] (pyStrip val) with
    | [vname, vtype, minv, maxv] =>
      match kindOf vtype with
      | none => .error .valueError
      | some k =>
        match parseBound minv with
        | .error e => .error e
        | .ok mn =>
          match parseBound maxv with
          | .error e => .error e
          | .ok mx =>
            match addTypeVals rest with
            | .error e => .error e
            | .ok (tys, rngs) => .ok ((vname, k) :: tys, (vname, (mn, mx)) :: rngs)
    | _ => .error .valueError

/-- `CollectDTypes._add_type_line` (lines 68-87): the entry that would be
stored under `self.types[name]` / `self.type_ranges[name]` for one line, or
the exception the line raises. -/
def addTypeLine (line : List Char) :
    Except PyErr (List Char × List (List Char × Nat) × List (List Char × (Option ℚ × Option ℚ))) :=
  match splitNone1 line with
  | .error e => .error e
  | .ok (name, spec) =>
    match addTypeVals (splitSeq [',', ' '] spec) with
    | .error e => .error e
    | .ok (tys, rngs) => .ok (name, tys, rngs)

/-! ## Name converter (`CollectDConverter`) -/

/-- The converter object state as assigned by `CollectDConverter.__init__`
(lines 188-198).  Note the instance attributes are exactly
`prefix, postfix, replace, strip_dupes, host_trim`: neither `parts` nor
`strip` is ever assigned. -/
structure Converter where
  pfx : Option String
  sfx : Option String
  replaceChar : Option String
  strip_dupes : Bool
  hostTrimAttr : List (List String)
deriving DecidableEq, Repr

/-- `CollectDConverter.__init__` (lines 188-198).  With a non-empty
`host_trim`, the first loop iteration executes
`list(reversed(p.strip() for p in s.split(".")))`; `reversed` applied to a
generator raises `TypeError` (and the following `self.strip.append(s)` would
raise `AttributeError`), so construction fails. -/
def converterInit (pfx sfx : Option String) (replace : Option String)
    (strip_dup : Bool) (host_trim : Option (List String)) :
    Except PyErr Converter :=
  match host_trim with
  | none => .ok ⟨pfx, sfx, replace, strip_dup, []⟩
  | some [] => .ok ⟨pfx, sfx, replace, strip_dup, []⟩
  | some (_ :: _) => .error .typeError

/-- `CollectDConverter.stat` (lines 204-216).  After `parts = []` and the
optional prefix append, line 208 evaluates `self.parts.extend(...)`; the
object has no attribute `parts` (see `Converter`), so the method raises
`AttributeError` unconditionally and never returns a name. -/
def stat (_c : Converter) (_host _plugin _plugin_instance _type _type_instance
    _value_name : String) : Except PyErr String :=
  .error .attributeError

/-- `CollectDConverter.strip_duplicates` (lines 247-252): `ret = []` and the
loop body reads `ret[-1]`, so the very first iteration (any non-empty input)
raises `IndexError`. -/
def stripDuplicates (parts : List String) : Except PyErr (List String) :=
  go [] parts
where
  go (ret : List String) : List String → Except PyErr (List String)
    | [] => .ok ret
    | p :: ps =>
      match ret.getLast? with
      | none => .error .indexError
      | some l => if p ≠ l then go (ret ++ [p]) ps else go ret ps

/-! ## Helper lemmas -/

theorem tagsMatch_nil (body : List Nat) : TagsMatch body [] := by
  intro i hi
  simp at hi

theorem tagsMatch_cons {b : Nat} {bs : List Nat} {t : String × Nat}
    {ts : List (String × Nat)} :
    TagsMatch (b :: bs) (t :: ts) ↔ b = t.2 ∧ TagsMatch bs ts := by
  constructor
  · intro H
    refine ⟨by simpa using H 0 (Nat.succ_pos _), fun i hi => ?_⟩
    have := H (i + 1) (Nat.succ_lt_succ hi)
    simpa using this
  · rintro ⟨h0, H⟩ i hi
    cases i with
    | zero => simpa using h0
    | succ j =>
      have hj : j < ts.length := Nat.lt_of_succ_lt_succ hi
      simpa using H j hj

/-- The tag-check loop succeeds exactly when every tag byte matches the
schema kind at its position (given enough tag bytes, its failure is always
`ProtocolError`). -/
theorem tagsLoop_eq :
    ∀ (td : List (String × Nat)) (body : List Nat), td.length ≤ body.length →
      tagsLoop body td = if TagsMatch body td then .ok () else .error .protocolError := by
  intro td
  induction td with
  | nil =>
    intro body _
    rw [if_pos (tagsMatch_nil body)]
    cases body <;> rfl
  | cons t ts ih =>
    intro body h
    cases body with
    | nil => simp at h
    | cons b bs =>
      have hlen : ts.length ≤ bs.length := by simpa using h
      by_cases hb : b = t.2
      · have hstep : tagsLoop (b :: bs) (t :: ts) = tagsLoop bs ts := by
          simp [tagsLoop, hb]
        rw [hstep, ih bs hlen]
        by_cases hm : TagsMatch bs ts
        · rw [if_pos hm, if_pos (tagsMatch_cons.mpr ⟨hb, hm⟩)]
        · rw [if_neg hm, if_neg (fun H => hm (tagsMatch_cons.mp H).2)]
      · have hstep : tagsLoop (b :: bs) (t :: ts) = .error .protocolError := by
          simp [tagsLoop, hb]
        rw [hstep, if_neg (fun H => hb (tagsMatch_cons.mp H).1)]

/-- The decode loop, on a well-kinded schema entry list with enough value
bytes, succeeds and decodes the `i`-th value from bytes `8*i .. 8*i+8` with
the format matching its kind. -/
theorem decodeLoop_eq :
    ∀ (td : List (String × Nat)) (vals : List Nat), (∀ p ∈ td, p.2 < 4) →
      8 * td.length ≤ vals.length →
      decodeLoop td vals = .ok ((List.range td.length).map fun i =>
        ((td.getD i ("", 0)).1, (td.getD i ("", 0)).2,
          specDecode (td.getD i ("", 0)).2 ((vals.drop (8 * i)).take 8))) := by
  intro td
  induction td with
  | nil =>
    intro vals _ _
    simp [decodeLoop]
  | cons t ts ih =>
    intro vals hwf hlen
    obtain ⟨vn, k⟩ := t
    have ht : k < 4 := by simpa using hwf (vn, k) (by simp)
    simp only [List.length_cons] at hlen
    have h8 : 8 ≤ vals.length := by omega
    have htake : (vals.take 8).length = 8 := by
      rw [List.length_take]
      omega
    have hdlen : 8 * ts.length ≤ (vals.drop 8).length := by
      rw [List.length_drop]
      omega
    have hrec := ih (vals.drop 8) (fun p hp => hwf p (List.mem_cons_of_mem _ hp)) hdlen
    have hshift : ∀ i ∈ List.range ts.length,
        ((((vn, k) :: ts).getD (i + 1) ("", 0)).1, (((vn, k) :: ts).getD (i + 1) ("", 0)).2,
          specDecode (((vn, k) :: ts).getD (i + 1) ("", 0)).2
            ((vals.drop (8 * (i + 1))).take 8)) =
        ((ts.getD i ("", 0)).1, (ts.getD i ("", 0)).2,
          specDecode (ts.getD i ("", 0)).2 (((vals.drop 8).drop (8 * i)).take 8)) := by
      intro i _
      have h1 : 8 * (i + 1) = 8 + 8 * i := by ring
      rw [List.getD_cons_succ, h1, ← List.drop_drop]
    have hmap : (List.range (ts.length + 1)).map (fun i =>
        ((((vn, k) :: ts).getD i ("", 0)).1, (((vn, k) :: ts).getD i ("", 0)).2,
          specDecode (((vn, k) :: ts).getD i ("", 0)).2 ((vals.drop (8 * i)).take 8))) =
        (vn, k, specDecode k (vals.take 8)) :: (List.range ts.length).map (fun i =>
          ((ts.getD i ("", 0)).1, (ts.getD i ("", 0)).2,
            specDecode (ts.getD i ("", 0)).2 (((vals.drop 8).drop (8 * i)).take 8))) := by
      rw [List.range_succ_eq_map, List.map_cons, List.map_map]
      refine congrArg₂ List.cons ?_ (List.map_congr_left fun i hi => hshift i hi)
      simp
    simp only [List.length_cons]
    rw [hmap]
    interval_cases k <;>
      simp [decodeLoop, fmtOf, unpackFmt, htake, hrec, specDecode]


theorem pySliceFrom_length_le (i : ℤ) (l : List Nat) :
    (pySliceFrom i l).length ≤ l.length := by
  unfold pySliceFrom
  split <;> simp [List.length_drop]

/-- The wire walk consumes strictly more than the fuel it burns, so
`data.length` fuel is always enough: the fuel-exhaustion branch of
`parseDataAux` is unreachable from `parseData`. -/
theorem parseDataAux_fuel (fuel : Nat) :
    ∀ data : List Nat, data.length ≤ fuel → parseDataAux fuel data = parseData data := by
  induction fuel using Nat.strong_induction_on with
  | _ fuel ih =>
    intro data h
    rcases data with _ | ⟨b0, _ | ⟨b1, _ | ⟨b2, _ | ⟨b3, rest⟩⟩⟩⟩
    · cases fuel <;> rfl
    · cases fuel with
      | zero => simp at h
      | succ f => rfl
    · cases fuel with
      | zero => simp at h
      | succ f => rfl
    · cases fuel with
      | zero => simp at h
      | succ f => rfl
    · cases fuel with
      | zero => simp at h
      | succ f =>
        simp only [List.length_cons] at h
        have hR : parseData (b0 :: b1 :: b2 :: b3 :: rest) =
            parseDataAux (rest.length + 3 + 1) (b0 :: b1 :: b2 :: b3 :: rest) := rfl
        rw [hR]
        simp only [parseDataAux]
        split
        · rfl
        · split
          · rfl
          · have hlen := pySliceFrom_length_le ((256 * b2 + b3 : ℤ) - 4) rest
            rw [ih f (by omega) _ (by omega),
              ih (rest.length + 3) (by omega) _ (by omega)]

/-! ## Claim theorems -/

/-- C1: the claim says a GAUGE sample with prior state is emitted unchanged
(42.0 at time 1000 yielding `("h1.cpu", 42.0, 1000)`), but the gauge handler
in `calculate` is `lambda v: v`, a 1-parameter function invoked with the
three arguments `(name, val, time)`: every GAUGE observation raises
`TypeError` (leaving the state untouched), an exception the datagram loop's
`except ProtocolError` does not catch. -/
theorem c1_gauge_raises_type_error :
    (∀ (st : RateState) (v t : ℤ), calculate "h1.cpu" 1 v t st = (st, .error .typeError)) ∧
    runCatches .typeError = false :=
  ⟨fun _ _ _ => rfl, rfl⟩

/-- C2: on a zero time delta the claim says nothing is emitted, no exception
escapes the datagram loop, and the baseline is untouched.  In fact for
COUNTER, DERIVE and ABSOLUTE alike the code overwrites the baseline first
and then raises `ZeroDivisionError`, which `run`'s `except ProtocolError`
does not catch. -/
theorem c2_zero_delta_crashes :
    calculate "n" 0 5 10 [("n", (3, 10))] = ([("n", (5, 10))], .error .zeroDivisionError) ∧
    calculate "n" 2 5 10 [("n", (3, 10))] = ([("n", (5, 10))], .error .zeroDivisionError) ∧
    calculate "n" 3 5 10 [("n", (3, 10))] = ([("n", (5, 10))], .error .zeroDivisionError) ∧
    runCatches .zeroDivisionError = false ∧
    ([("n", (5, 10))] : RateState) ≠ [("n", (3, 10))] := by
  refine ⟨rfl, rfl, rfl, rfl, ?_⟩
  decide

/-- C3 counterexample: with baseline `(0, 0)` and a COUNTER observation of
value 3 at time 2, the code emits `(3 - 0) / (2 - 0)` under Python 2 integer
division, i.e. 1, not the real-valued quotient 3/2 the claim states. -/
theorem c3_counterexample :
    calculate "n" 0 3 2 [("n", (0, 0))] = ([("n", (3, 2))], .ok (some 1)) ∧
    (1 : ℚ) ≠ ((3 : ℚ) - 0) / ((2 : ℚ) - 0) := by
  refine ⟨rfl, ?_⟩
  norm_num

/-- C3 amended: for a COUNTER sample with prior state, a decreasing value is
suppressed with the baseline reset to `(rawValue, timestamp)`; otherwise,
provided the timestamp differs from the stored one, the emitted value is the
*floor* of `(rawValue - prevValue) / (timestamp - prevTime)` (Python 2 `/`
on ints) and the baseline is updated. -/
theorem c3_counter_floor_rate (name : String) (val time pval ptime : ℤ)
    (st : RateState) (h : rsGet st name = some (pval, ptime)) :
    (val < pval → calculate name 0 val time st = (rsSet st name (val, time), .ok none)) ∧
    (¬ val < pval → time ≠ ptime →
      calculate name 0 val time st =
        (rsSet st name (val, time), .ok (some ((val - pval).fdiv (time - ptime))))) := by
  constructor
  · intro hlt
    simp [calculate, calcCounter, h, hlt]
  · intro hge hne
    simp [calculate, calcCounter, h, hge, hne]

/-- Witness for the amended C3 theorem at concrete inputs: a rising counter
(0 then 3, over times 0 then 2) emits `Int.fdiv 3 2 = 1`; a falling counter
(4 then 1) is suppressed with the baseline reset. -/
theorem c3_counter_floor_rate_witness :
    calculate "n" 0 3 2 [("n", (0, 0))] = ([("n", (3, 2))], .ok (some 1)) ∧
    calculate "m" 0 1 5 [("m", (4, 2))] = ([("m", (1, 5))], .ok none) := by
  constructor
  · have h := (c3_counter_floor_rate "n" 3 2 0 0 [("n", (0, 0))] (by rfl)).2
      (by decide) (by decide)
    simpa using h
  · have h := (c3_counter_floor_rate "m" 1 5 4 2 [("m", (4, 2))] (by rfl)).1 (by decide)
    simpa using h

/-- C4 counterexample: the claim says the first observation of any name
stores the baseline and emits nothing *regardless of kind*; for GAUGE
(kind 1) the handler raises `TypeError` instead and no baseline is stored. -/
theorem c4_counterexample :
    calculate "value" 1 42 1000 ([] : RateState) = ([], .error .typeError) ∧
    calculate "value" 1 42 1000 ([] : RateState) ≠
      (rsSet [] "value" (42, 1000), .ok none) := by
  refine ⟨rfl, ?_⟩
  decide

/-- C4 amended: for the kinds COUNTER (0), DERIVE (2) and ABSOLUTE (3), the
first observation of a name stores `(rawValue, timestamp)` as the baseline
and emits nothing; for GAUGE the handler raises `TypeError` instead, so the
claim's "regardless of kind" fails. -/
theorem c4_first_observation_silent (name : String) (kind : Nat) (v t : ℤ)
    (st : RateState) (h : rsGet st name = none)
    (hk : kind = 0 ∨ kind = 2 ∨ kind = 3) :
    calculate name kind v t st = (rsSet st name (v, t), .ok none) := by
  rcases hk with rfl | rfl | rfl <;>
    simp [calculate, calcCounter, calcDerive, calcAbsolute, h]

/-- Witness for the amended C4 theorem: first observations for each of the
three integer kinds on an empty state. -/
theorem c4_first_observation_silent_witness :
    calculate "x" 0 7 9 ([] : RateState) = ([("x", (7, 9))], .ok none) ∧
    calculate "x" 2 7 9 ([] : RateState) = ([("x", (7, 9))], .ok none) ∧
    calculate "x" 3 7 9 ([] : RateState) = ([("x", (7, 9))], .ok none) := by
  refine ⟨?_, ?_, ?_⟩
  · have h := c4_first_observation_silent "x" 0 7 9 [] (by rfl) (Or.inl rfl)
    simpa using h
  · have h := c4_first_observation_silent "x" 2 7 9 [] (by rfl) (Or.inr (Or.inl rfl))
    simpa using h
  · have h := c4_first_observation_silent "x" 3 7 9 [] (by rfl) (Or.inr (Or.inr rfl))
    simpa using h

/-- C7: the claim says loading the type database either succeeds or fails
with `ConfigError`, with an unrecognized KIND failing the load with
`ConfigError`.  In the code (a) `_load_types` reads `self.types_db`, an
attribute `__init__` never assigns (it sets `typesdb`; the `_fname` path
helper is never called), so every load raises `AttributeError` before the
file is read; and (b) the KIND check of `_add_type_line` raises
`ValueError`, not `ConfigError`. -/
theorem c7_load_failure_wrong_exception :
    addTypeLine "foo a:BOGUS:U:U".toList = .error .valueError ∧
    PyErr.valueError ≠ PyErr.configError ∧
    loadTypesReadsAttr ∉ collectDTypesInitAttrs := by
  refine ⟨rfl, by decide, by decide⟩

/-- C8: the claim's scenario (host `"c1.example.com"`, trim rule
`["com","example"]`, plugin `"cpu"`) cannot produce `"c1.cpu"`: configuring
any non-empty host-trim list makes `__init__` raise `TypeError`
(`reversed` over a generator; the subsequent `self.strip.append` would be an
`AttributeError`), and `stat` itself always raises `AttributeError` because
it reads the never-assigned attribute `self.parts`. -/
theorem c8_converter_broken :
    converterInit none none (some "_") true (some ["com", "example"]) = .error .typeError ∧
    (∀ (c : Converter) (host plugin pinst ty tyinst vname : String),
      stat c host plugin pinst ty tyinst vname = .error .attributeError) :=
  ⟨rfl, fun _ _ _ _ _ _ _ => rfl⟩

/-- C9: the claim says adjacent duplicate parts are collapsed
(`["db","db","load"]` to `"db.load"`), but `strip_duplicates` reads
`ret[-1]` while `ret` is still `[]`, so any non-empty input raises
`IndexError`. -/
theorem c9_strip_duplicates_index_error :
    stripDuplicates ["db", "db", "load"] = .error .indexError := rfl

/-- C10: a datagram whose first part header declares length 0 (< 4) passes
the truncation check (`len(data) < -4` is false) and slices its payload with
the negative index: the walk yields a bogus host part holding bytes stolen
up to the datagram's last four bytes, then re-parses those four bytes as a
fresh header, and finishes with no `ProtocolError` at all. -/
theorem c10_negative_declared_length :
    parseData [0x00, 0x00, 0x00, 0x00, 65, 66, 0, 0x00, 0x01, 0x00, 0x04] =
      ([(0x0000, [65, 66, 0]), (0x0001, [])], none) ∧
    256 * 0x00 + 0x00 < 4 := by
  refine ⟨rfl, by decide⟩

/-- C5: a values part whose count field declares `n` fails with
`ProtocolError` unless the payload is exactly `2 + 9n` bytes (so the body
after the count is `9n` bytes), the type is known with arity `n`, and each
1-byte kind tag equals the schema kind at its position; when all checks pass,
the `i`-th output triple carries the schema's `i`-th value name and kind and
the value decoded from bytes `n + 8i .. n + 8i + 8` of the body: big-endian
unsigned for COUNTER (0) and ABSOLUTE (3), big-endian signed for DERIVE (2),
little-endian IEEE-754 double for GAUGE (1). -/
theorem c5_values_part (schema : Schema) (stype : List Nat) (c0 c1 : Nat)
    (body : List Nat) :
    (body.length ≠ 9 * (256 * c0 + c1) →
      parse_values schema stype (c0 :: c1 :: body) = .error .protocolError) ∧
    (body.length = 9 * (256 * c0 + c1) → schemaGet schema stype = .error .protocolError →
      parse_values schema stype (c0 :: c1 :: body) = .error .protocolError) ∧
    (∀ td, body.length = 9 * (256 * c0 + c1) → schemaGet schema stype = .ok td →
      256 * c0 + c1 ≠ td.length →
      parse_values schema stype (c0 :: c1 :: body) = .error .protocolError) ∧
    (∀ td, body.length = 9 * (256 * c0 + c1) → schemaGet schema stype = .ok td →
      256 * c0 + c1 = td.length → ¬ TagsMatch body td →
      parse_values schema stype (c0 :: c1 :: body) = .error .protocolError) ∧
    (∀ td, body.length = 9 * (256 * c0 + c1) → schemaGet schema stype = .ok td →
      256 * c0 + c1 = td.length → TagsMatch body td → (∀ p ∈ td, p.2 < 4) →
      parse_values schema stype (c0 :: c1 :: body) =
        .ok ((List.range (256 * c0 + c1)).map fun i =>
          ((td.getD i ("", 0)).1, (td.getD i ("", 0)).2,
            specDecode (td.getD i ("", 0)).2
              ((body.drop ((256 * c0 + c1) + 8 * i)).take 8)))) := by
  refine ⟨?_, ?_, ?_, ?_, ?_⟩
  · intro h
    simp [parse_values, h]
  · intro h1 h2
    simp [parse_values, h1, h2]
  · intro td h1 h2 h3
    simp [parse_values, h1, h2, h3]
  · intro td h1 h2 h3 hm
    have hle : td.length ≤ body.length := by omega
    simp [parse_values, h1, h2, h3, tagsLoop_eq td body hle, hm]
  · intro td h1 h2 h3 hm hwf
    have hle : td.length ≤ body.length := by omega
    have hdl : 8 * td.length ≤ (body.drop (256 * c0 + c1)).length := by
      rw [List.length_drop]
      omega
    have hdec := decodeLoop_eq td (body.drop (256 * c0 + c1)) hwf hdl
    have hmap : ((List.range td.length).map fun i =>
        ((td.getD i ("", 0)).1, (td.getD i ("", 0)).2,
          specDecode (td.getD i ("", 0)).2
            (((body.drop (256 * c0 + c1)).drop (8 * i)).take 8))) =
        ((List.range (256 * c0 + c1)).map fun i =>
          ((td.getD i ("", 0)).1, (td.getD i ("", 0)).2,
            specDecode (td.getD i ("", 0)).2
              ((body.drop ((256 * c0 + c1) + 8 * i)).take 8))) := by
      rw [h3]
      exact List.map_congr_left fun i _ => by rw [List.drop_drop]
    have hpv : parse_values schema stype (c0 :: c1 :: body) =
        decodeLoop td (body.drop (256 * c0 + c1)) := by
      have hne : ¬ body.length ≠ 9 * (256 * c0 + c1) := by omega
      simp only [parse_values, h2]
      rw [if_neg hne, if_neg (by omega : ¬ 256 * c0 + c1 ≠ td.length),
        tagsLoop_eq td body hle, if_pos hm]
    rw [hpv, hdec]
    exact congrArg Except.ok hmap

/-- Witness for C5 at a concrete input: type `"c"` (byte 99) declared with a
single GAUGE value named `"value"`; a payload with count 1, tag byte 1 and
the little-endian bytes of the double 42.0 decodes to the bit pattern
`0x4045000000000000`. -/
theorem c5_values_part_witness :
    parse_values [([99], [("value", 1)])] [99]
        [0, 1, 1, 0, 0, 0, 0, 0, 0, 69, 64] =
      .ok [("value", 1, .vfloat 4631107791820423168)] := by
  have h := (c5_values_part [([99], [("value", 1)])] [99] 0 1
      [1, 0, 0, 0, 0, 0, 0, 69, 64]).2.2.2.2 [("value", 1)]
    (by decide) (by rfl) (by decide) (by decide) (by decide)
  rw [h]
  rfl

/-- C6: the wire walk raises `ProtocolError` when fewer than 4 bytes remain
for a header, when the part-type code is outside the full protocol set, and
when fewer bytes remain than the declared payload length (declared length
minus 4); a recognized-but-unhandled code (message 0x0100, severity 0x0101,
signature 0x0200, encryption 0x0210) is skipped by the sample-assembly loop
with no error, no state change and no output, and iteration continues with
the remaining parts. -/
theorem c6_wire_walk_errors :
    (∀ d : List Nat, 0 < d.length → d.length < 4 →
      parseData d = ([], some .protocolError)) ∧
    (∀ (b0 b1 b2 b3 : Nat) (rest : List Nat), 256 * b0 + b1 ∉ validCodes →
      parseData (b0 :: b1 :: b2 :: b3 :: rest) = ([], some .protocolError)) ∧
    (∀ (b0 b1 b2 b3 : Nat) (rest : List Nat), 256 * b0 + b1 ∈ validCodes →
      (rest.length : ℤ) < (256 * b2 + b3 : ℤ) - 4 →
      parseData (b0 :: b1 :: b2 :: b3 :: rest) = ([], some .protocolError)) ∧
    (∀ (schema : Schema) (s : Sample) (parts : List (Nat × List Nat))
        (perr : Option PyErr) (pt : Nat) (pd : List Nat),
      pt ∈ [0x0100, 0x0101, 0x0200, 0x0210] →
      goSamples schema s ((pt, pd) :: parts) perr = goSamples schema s parts perr) := by
  refine ⟨?_, ?_, ?_, ?_⟩
  · intro d h1 h4
    rcases d with _ | ⟨a, _ | ⟨b, _ | ⟨c, _ | ⟨e, r⟩⟩⟩⟩
    · simp at h1
    · rfl
    · rfl
    · rfl
    · exfalso
      simp only [List.length_cons] at h4
      omega
  · intro b0 b1 b2 b3 rest h
    have hR : parseData (b0 :: b1 :: b2 :: b3 :: rest) =
        parseDataAux (rest.length + 3 + 1) (b0 :: b1 :: b2 :: b3 :: rest) := rfl
    rw [hR]
    simp only [parseDataAux]
    rw [if_pos h]
  · intro b0 b1 b2 b3 rest h h2
    have hR : parseData (b0 :: b1 :: b2 :: b3 :: rest) =
        parseDataAux (rest.length + 3 + 1) (b0 :: b1 :: b2 :: b3 :: rest) := rfl
    rw [hR]
    simp only [parseDataAux]
    rw [if_neg (by simpa using h), if_pos h2]
  · intro schema s parts perr pt pd h
    have h4 : pt = 0x0100 ∨ pt = 0x0101 ∨ pt = 0x0200 ∨ pt = 0x0210 := by
      simpa using h
    rcases h4 with rfl | rfl | rfl | rfl <;> rfl

/-- Witness for C6 at concrete inputs: a 1-byte datagram (truncated header),
an unknown part code 0x000a, a valid code 0x0000 whose declared length 10
exceeds the empty remainder, and a message part (0x0100) skipped by the
assembly loop without error. -/
theorem c6_wire_walk_errors_witness :
    parseData [0] = ([], some .protocolError) ∧
    parseData [0, 10, 0, 4] = ([], some .protocolError) ∧
    parseData [0, 0, 0, 10] = ([], some .protocolError) ∧
    goSamples [] {} [(0x0100, [1, 2, 3])] none = ([], none) := by
  refine ⟨c6_wire_walk_errors.1 [0] (by decide) (by decide),
    c6_wire_walk_errors.2.1 0 10 0 4 [] (by decide),
    c6_wire_walk_errors.2.2.1 0 0 0 10 [] (by decide) (by decide), ?_⟩
  have h := c6_wire_walk_errors.2.2.2 [] {} [] none 0x0100 [1, 2, 3] (by decide)
  simpa using h

end Bucky
